import Mathlib

/-!
Shallow embedding of the Baycation messaging / rating backend.

The definitions below are translated from:
* `backend/controllers/discussionController.js` (DiscussionController)
* `backend/models/Discussion.js` (discussionSchema)
* `backend/controllers/chatController.js` (ChatController)
* `backend/controllers/tripController.js` (RatingController)
* `backend/models/Rating.js` (ratingSchema)

MongoDB object ids, uuids, and timestamps are modelled as `Nat`; document
collections are modelled as Lean lists; `Model.findOne` / `Model.findById`
become `List.find?`; an update that is keyed by the unique `_id` of a
document becomes a `List.map` that rewrites exactly the documents whose id
matches (at most one, since `_id` is unique).  HTTP outcomes are modelled by
their numeric status codes.
-/

set_option maxRecDepth 100000

/-! ### Generic list helpers -/

/-- Update the first element of a list satisfying `p` (the semantics of a
`findOneAndUpdate` that modifies one matching document in place). -/
def updateFirst (p : α → Bool) (f : α → α) : List α → List α
  | [] => []
  | x :: xs => if p x then f x :: xs else x :: updateFirst p f xs

/-! ### JavaScript string trimming

`String.prototype.trim` strips leading and trailing whitespace; the
characters that matter for this code base are the ASCII ones. -/

def isJsWs (c : Char) : Bool :=
  c = ' ' || c = '\t' || c = '\n' || c = '\r'

/-- Model of JavaScript `s.trim()`. -/
def jsTrim (s : String) : String :=
  ⟨((s.data.dropWhile isJsWs).reverse.dropWhile isJsWs).reverse⟩

/-! ### Users (backend/models/User.js, as consumed by the controllers) -/

structure User where
  id : Nat
  role : String
deriving DecidableEq

/-- `User.findById`. -/
def findUser (users : List User) (uid : Nat) : Option User :=
  users.find? (fun u => u.id == uid)

/-! ### Discussion subsystem

Data model from `backend/models/Discussion.js`; operations from
`backend/controllers/discussionController.js`. -/

/-- One entry of `discussionSchema.messages`.  The schema declares
`content` with `maxlength: [1000, 'Message cannot exceed 1000 characters']`,
but that validator only runs on document `save()`; the `$push` issued by
`DiscussionController.sendMessage` goes through `findOneAndUpdate`, which
does not run validators (mongoose default `runValidators: false`). -/
structure DiscMessage where
  messageId : Nat
  author : Nat
  content : String
  messageType : String
  timestamp : Nat
deriving DecidableEq

/-- One entry of `tripSchema.participants`. -/
structure TripParticipant where
  user : Nat
  status : String
deriving DecidableEq

/-- The slice of a Trip document read by the discussion controller:
organizer, participants, `collaborativeFeatures.allowDiscussions` and
`collaborativeFeatures.lastActivity`. -/
structure Trip where
  id : Nat
  organizer : Nat
  participants : List TripParticipant
  allowDiscussions : Bool
  lastActivity : Nat
deriving DecidableEq

/-- One entry of `discussionSchema.activeUsers`. -/
structure ActiveUser where
  user : Nat
  lastSeen : Nat
  isTyping : Bool
deriving DecidableEq

structure Discussion where
  trip : Nat
  messages : List DiscMessage
  activeUsers : List ActiveUser
deriving DecidableEq

/-- The persistent state touched by the discussion controller. -/
structure DiscState where
  trips : List Trip
  discussions : List Discussion
deriving DecidableEq

/-- `Trip.findById`. -/
def findTrip (trips : List Trip) (tripId : Nat) : Option Trip :=
  trips.find? (fun t => t.id == tripId)

/-- `Discussion.findOne({ trip: tripId })`. -/
def findDisc (discussions : List Discussion) (tripId : Nat) : Option Discussion :=
  discussions.find? (fun d => d.trip == tripId)

/-- The `isOrganizer || isParticipant` check repeated in
`getDiscussion` / `sendMessage` / `updateTypingStatus`. -/
def canAccess (t : Trip) (uid : Nat) : Bool :=
  t.organizer == uid ||
    t.participants.any (fun p => p.user == uid && p.status == "confirmed")

/-- The `$set` on `activeUsers.<uid>.lastSeen` / `.isTyping`: upsert the
presence entry of `uid`. -/
def upsertActive (uid now : Nat) (typing : Bool) : List ActiveUser → List ActiveUser
  | [] => [⟨uid, now, typing⟩]
  | a :: rest =>
    if a.user == uid then ⟨uid, now, typing⟩ :: rest
    else a :: upsertActive uid now typing rest

/-- The `messageData` object built by `sendMessage`. -/
def mkDiscMessage (msgId requester : Nat) (content messageType : String) (now : Nat) :
    DiscMessage :=
  ⟨msgId, requester, jsTrim content, messageType, now⟩

/-- The per-document effect of the `$push` + presence `$set` issued by
`sendMessage`. -/
def appendMsgPresence (m : DiscMessage) (uid now : Nat) (d : Discussion) : Discussion :=
  { d with messages := d.messages ++ [m], activeUsers := upsertActive uid now false d.activeUsers }

/-- The discussion document created by the upsert when none exists yet:
just the new message and the sender's presence entry. -/
def upsertedDiscussion (tripId : Nat) (m : DiscMessage) (uid now : Nat) : Discussion :=
  ⟨tripId, [m], upsertActive uid now false []⟩

/-- `Discussion.findOneAndUpdate({trip}, {$push: {messages}, $set: presence},
{upsert: true})`: push onto the existing discussion, or create one holding
just the new message. -/
def pushMessageUpsert (st : DiscState) (tripId : Nat) (m : DiscMessage) (uid now : Nat) :
    DiscState :=
  match findDisc st.discussions tripId with
  | some _ =>
    { st with discussions := updateFirst (fun d => d.trip == tripId) (appendMsgPresence m uid now) st.discussions }
  | none =>
    { st with discussions := st.discussions ++ [upsertedDiscussion tripId m uid now] }

/-- `Trip.findByIdAndUpdate(tripId, {'collaborativeFeatures.lastActivity': new Date()})`. -/
def touchTripActivity (trips : List Trip) (tripId now : Nat) : List Trip :=
  updateFirst (fun t => t.id == tripId) (fun t => { t with lastActivity := now }) trips

/-- Outcome of `DiscussionController.sendMessage`: HTTP status, persistent
state afterwards, and the `data.message` payload (if any). -/
structure DiscSendOutcome where
  status : Nat
  state : DiscState
  sent : Option DiscMessage
deriving DecidableEq

/-- `DiscussionController.sendMessage`.  `msgId` stands for the generated
uuid and `now` for `new Date()`. -/
def sendMessage (st : DiscState) (tripId requester : Nat) (content messageType : String)
    (msgId now : Nat) : DiscSendOutcome :=
  if (jsTrim content).length == 0 then ⟨400, st, none⟩
  else
    match findTrip st.trips tripId with
    | none => ⟨404, st, none⟩
    | some trip =>
      if !trip.allowDiscussions then ⟨403, st, none⟩
      else if !canAccess trip requester then ⟨403, st, none⟩
      else
        let m := mkDiscMessage msgId requester content messageType now
        let st1 := pushMessageUpsert st tripId m requester now
        let st2 := { st1 with trips := touchTripActivity st1.trips tripId now }
        ⟨201, st2, some m⟩

/-- The ascending-timestamp comparison used by `getDiscussion`
(`(a, b) => new Date(a.timestamp) - new Date(b.timestamp)`). -/
def tsLe (a b : DiscMessage) : Prop :=
  a.timestamp ≤ b.timestamp

instance : DecidableRel tsLe := fun a b => Nat.decLe a.timestamp b.timestamp

instance : IsTotal DiscMessage tsLe :=
  ⟨fun a b => Nat.le_total a.timestamp b.timestamp⟩

instance : IsTrans DiscMessage tsLe :=
  ⟨fun _ _ _ => Nat.le_trans⟩

/-- Outcome of `DiscussionController.getDiscussion`: HTTP status, state
afterwards (a discussion may be lazily created), and the paginated
`data.discussion.messages` payload. -/
structure DiscFetchOutcome where
  status : Nat
  state : DiscState
  messages : Option (List DiscMessage)
deriving DecidableEq

/-- `DiscussionController.getDiscussion`.  `seedMsgId`/`now` stand for the
uuid and `new Date()` used when the discussion is created lazily.  The
JavaScript pagination offset `(parseInt(page) - 1) * parseInt(limit)`
matches the truncated `Nat` subtraction whenever `1 ≤ page` (the route
default is `page = 1`). -/
def getDiscussion (st : DiscState) (tripId requester page limit : Nat)
    (seedMsgId now : Nat) : DiscFetchOutcome :=
  match findTrip st.trips tripId with
  | none => ⟨404, st, none⟩
  | some trip =>
    if !canAccess trip requester then ⟨403, st, none⟩
    else
      match findDisc st.discussions tripId with
      | some d =>
        let sorted := List.insertionSort tsLe d.messages
        ⟨200, st, some ((sorted.drop ((page - 1) * limit)).take limit)⟩
      | none =>
        let d : Discussion :=
          ⟨tripId, [⟨seedMsgId, requester, "Discussion started for this trip!", "system", now⟩], []⟩
        let st1 := { st with discussions := st.discussions ++ [d] }
        let sorted := List.insertionSort tsLe d.messages
        ⟨200, st1, some ((sorted.drop ((page - 1) * limit)).take limit)⟩

/-! ### Chat / Q&A subsystem (backend/controllers/chatController.js)

The Chat and Message mongoose models are consumed through the controller;
the fields below are exactly the ones the controller reads and writes. -/

/-- One entry of a chat's `participants` array. -/
structure ChatParticipant where
  user : Nat
  role : String
deriving DecidableEq

structure Chat where
  id : Nat
  chat_id : Nat
  chatType : String
  participants : List ChatParticipant
  lastMessage : Option Nat
  lastActivity : Nat
deriving DecidableEq

/-- A chat-scoped Message document.  `id` is the `_id`; `createdAt` is the
mongoose timestamp used for ordering. -/
structure ChatMessage where
  id : Nat
  message_id : Nat
  chat : Nat
  sender : Nat
  content : String
  messageType : String
  readBy : List Nat
  isDeleted : Bool
  deletedAt : Option Nat
  isAnswered : Bool
  answer : Option String
  answeredBy : Option Nat
  answeredAt : Option Nat
  createdAt : Nat
deriving DecidableEq

/-- The match predicate of `Chat.findOne({chatType: 'direct',
'participants.user': {$all: [a, b]}})`: a direct chat whose participant
array contains both users. -/
def isDirectPair (a b : Nat) (c : Chat) : Bool :=
  c.chatType == "direct" &&
    c.participants.any (fun p => p.user == a) &&
    c.participants.any (fun p => p.user == b)

/-- The existing-chat lookup of `createDirectChat`. -/
def findDirectChat (chats : List Chat) (a b : Nat) : Option Chat :=
  chats.find? (isDirectPair a b)

/-- The `new Chat({...})` document built by `createDirectChat`: both users
in role "member". -/
def freshDirectChat (newId newUuid a b : Nat) : Chat :=
  ⟨newId, newUuid, "direct", [⟨a, "member"⟩, ⟨b, "member"⟩], none, 0⟩

/-- Outcome of `ChatController.createDirectChat`: HTTP status, chat
collection afterwards, `data.chat` payload. -/
structure ChatCreateOutcome where
  status : Nat
  chats : List Chat
  chat : Option Chat
deriving DecidableEq

/-- `ChatController.createDirectChat`.  The request body field
`participantId` is optional (`!participantId` is a 400); `newId`/`newUuid`
stand for the generated `_id` and uuid of a freshly created chat. -/
def createDirectChat (users : List User) (chats : List Chat) (userId : Nat)
    (participantBody : Option Nat) (newId newUuid : Nat) : ChatCreateOutcome :=
  match participantBody with
  | none => ⟨400, chats, none⟩
  | some participantId =>
    match findUser users participantId with
    | none => ⟨404, chats, none⟩
    | some _ =>
      match findDirectChat chats userId participantId with
      | some c => ⟨200, chats, some c⟩
      | none =>
        let c := freshDirectChat newId newUuid userId participantId
        ⟨201, chats ++ [c], some c⟩

/-- Number of direct chats whose participants contain both `a` and `b`
(the match set of the `createDirectChat` existence lookup). -/
def countDirectPair (chats : List Chat) (a b : Nat) : Nat :=
  (chats.filter (isDirectPair a b)).length

/-- The descending-`createdAt` comparison of `.sort({ createdAt: -1 })`. -/
def createdGe (a b : ChatMessage) : Prop :=
  b.createdAt ≤ a.createdAt

instance : DecidableRel createdGe := fun a b => Nat.decLe b.createdAt a.createdAt

instance : IsTotal ChatMessage createdGe :=
  ⟨fun a b => Nat.le_total b.createdAt a.createdAt⟩

instance : IsTrans ChatMessage createdGe :=
  ⟨fun _ _ _ h1 h2 => Nat.le_trans h2 h1⟩

/-- Outcome of `ChatController.getChatMessages`: HTTP status and the
`data.messages` payload. -/
structure ChatMsgsOutcome where
  status : Nat
  messages : Option (List ChatMessage)
deriving DecidableEq

/-- `Chat.findById`. -/
def findChat (chats : List Chat) (chatId : Nat) : Option Chat :=
  chats.find? (fun c => c.id == chatId)

/-- `ChatController.getChatMessages`: participant check, then
`Message.find({chat}).sort({createdAt: -1}).skip((page-1)*limit).limit(limit)`
followed by `messages.reverse()` ("Return in chronological order").  As with
`getDiscussion`, the `Nat` offset matches JavaScript for `1 ≤ page`. -/
def getChatMessages (chats : List Chat) (msgs : List ChatMessage)
    (chatId userId page limit : Nat) : ChatMsgsOutcome :=
  match findChat chats chatId with
  | none => ⟨404, none⟩
  | some chat =>
    if !chat.participants.any (fun p => p.user == userId) then ⟨403, none⟩
    else
      let sorted := List.insertionSort createdGe (msgs.filter (fun m => m.chat == chatId))
      ⟨200, some (((sorted.drop ((page - 1) * limit)).take limit).reverse)⟩

/-- `ChatController.markAsRead`: `Message.updateMany({chat, sender: {$ne:
user}, readBy: {$ne: user}}, {$addToSet: {readBy: user}})`.  There is no
chat-existence or participant check, and the response is always a 200. -/
def markReadOne (chatId userId : Nat) (m : ChatMessage) : ChatMessage :=
  if m.chat == chatId && m.sender != userId && !m.readBy.contains userId then
    { m with readBy := m.readBy ++ [userId] }
  else m

def markAsRead (msgs : List ChatMessage) (chatId userId : Nat) : Nat × List ChatMessage :=
  (200, msgs.map (markReadOne chatId userId))

/-- Outcome of the message-store mutating chat endpoints. -/
structure MsgStoreOutcome where
  status : Nat
  messages : List ChatMessage
deriving DecidableEq

/-- `Message.findById`. -/
def findMsg (msgs : List ChatMessage) (messageId : Nat) : Option ChatMessage :=
  msgs.find? (fun m => m.id == messageId)

/-- `ChatController.deleteMessage`: only the sender may delete; the delete
is soft (`isDeleted` + `deletedAt`), the document is kept. -/
def deleteMessage (msgs : List ChatMessage) (messageId userId now : Nat) : MsgStoreOutcome :=
  match findMsg msgs messageId with
  | none => ⟨404, msgs⟩
  | some m =>
    if m.sender != userId then ⟨403, msgs⟩
    else
      ⟨200, msgs.map (fun x =>
        if x.id == messageId then { x with isDeleted := true, deletedAt := some now } else x)⟩

/-- `ChatController.answerQuestion`: empty answer is a 400; a non-question
target or an already answered question is a 400; otherwise the answer
fields are set and the flag raised. -/
def answerQuestion (msgs : List ChatMessage) (messageId userId : Nat) (answer : String)
    (now : Nat) : MsgStoreOutcome :=
  if (jsTrim answer).length == 0 then ⟨400, msgs⟩
  else
    match findMsg msgs messageId with
    | none => ⟨404, msgs⟩
    | some m =>
      if m.messageType != "question" then ⟨400, msgs⟩
      else if m.isAnswered then ⟨400, msgs⟩
      else
        ⟨200, msgs.map (fun x =>
          if x.id == messageId then
            { x with answer := some (jsTrim answer), answeredBy := some userId,
                     answeredAt := some now, isAnswered := true }
          else x)⟩

/-! ### Rating subsystem (RatingController in backend/controllers/tripController.js,
backend/models/Rating.js) -/

structure Rating where
  id : Nat
  rating_id : Nat
  reviewer : Nat
  targetType : String
  targetId : Nat
  rating : Nat
  review : Option String
  helpfulVotes : Nat
  reportCount : Nat
  isHidden : Bool
  createdAt : Nat
deriving DecidableEq

/-- The target-validation `switch` of `createRating`: 'guide' requires an
existing user with role guide (else 404), 'trip' an existing trip (else
404), anything else is a 400.  Returns `some status` on early return. -/
def targetCheck (users : List User) (trips : List Trip) (targetType : String)
    (targetId : Nat) : Option Nat :=
  if targetType == "guide" then
    match findUser users targetId with
    | some u => if u.role == "guide" then none else some 404
    | none => some 404
  else if targetType == "trip" then
    match findTrip trips targetId with
    | some _ => none
    | none => some 404
  else some 400

/-- The `ratingSchema` validators that run on `save()`: `rating` is between
1 and 5, `review` at most 1000 characters.  A validator failure throws and
is caught as a 500. -/
def ratingValid (score : Nat) (review : Option String) : Bool :=
  1 ≤ score && score ≤ 5 &&
    (match review with
     | none => true
     | some r => r.length ≤ 1000)

/-- The `Rating.findOne({reviewer, targetType, targetId})` key match. -/
def matchRatingKey (reviewer : Nat) (targetType : String) (targetId : Nat)
    (r : Rating) : Bool :=
  r.reviewer == reviewer && r.targetType == targetType && r.targetId == targetId

structure RatingOutcome where
  status : Nat
  ratings : List Rating
deriving DecidableEq

/-- The `new Rating({...})` document built by `createRating`: fresh counters,
not hidden. -/
def freshRating (newId newUuid reviewerId : Nat) (targetType : String) (targetId score : Nat)
    (review : Option String) (now : Nat) : Rating :=
  ⟨newId, newUuid, reviewerId, targetType, targetId, score, review, 0, 0, false, now⟩

/-- `RatingController.createRating`: validate the target, then either update
the existing rating of this reviewer for this target in place (200) or
persist a new one (201).  (The guide-average recomputation touches only the
guide's User document and is not tracked here.) -/
def createRating (users : List User) (trips : List Trip) (ratings : List Rating)
    (reviewerId : Nat) (targetType : String) (targetId score : Nat)
    (review : Option String) (newId newUuid now : Nat) : RatingOutcome :=
  match targetCheck users trips targetType targetId with
  | some s => ⟨s, ratings⟩
  | none =>
    match ratings.find? (matchRatingKey reviewerId targetType targetId) with
    | some existing =>
      if ratingValid score review then
        ⟨200, ratings.map (fun r =>
          if r.id == existing.id then { r with rating := score, review := review } else r)⟩
      else ⟨500, ratings⟩
    | none =>
      if ratingValid score review then
        ⟨201, ratings ++ [freshRating newId newUuid reviewerId targetType targetId score review now]⟩
      else ⟨500, ratings⟩

/-- Number of persisted ratings for a (reviewer, targetType, targetId) key. -/
def countRatingKey (ratings : List Rating) (reviewer : Nat) (targetType : String)
    (targetId : Nat) : Nat :=
  (ratings.filter (matchRatingKey reviewer targetType targetId)).length

/-- `RatingController.reportRating`: increment `reportCount`, auto-hide at
five or more reports. -/
def reportRating (ratings : List Rating) (ratingId : Nat) : RatingOutcome :=
  match ratings.find? (fun r => r.id == ratingId) with
  | none => ⟨404, ratings⟩
  | some _ =>
    ⟨200, ratings.map (fun r =>
      if r.id == ratingId then
        { r with reportCount := r.reportCount + 1,
                 isHidden := if r.reportCount + 1 ≥ 5 then true else r.isHidden }
      else r)⟩

/-- The `find` filter of `RatingController.getRatings`: ratings for the
target with `isHidden: false` (sorting, pagination and the aggregate stats
operate on this match set). -/
def visibleRatings (ratings : List Rating) (targetType : String) (targetId : Nat) :
    List Rating :=
  ratings.filter (fun r => r.targetType == targetType && r.targetId == targetId && r.isHidden == false)

/-! ### Concrete stores used by the closed evaluation theorems -/

/-- 1001 characters: one more than the schema's `maxlength`. -/
def longContent : String := String.mk (List.replicate 1001 'a')

/-- Exactly 1000 characters: the schema's `maxlength` boundary. -/
def content1000 : String := String.mk (List.replicate 1000 'b')

/-- A trip with discussions enabled, organizer 10, one confirmed participant 20. -/
def tripOpen : Trip := ⟨1, 10, [⟨20, "confirmed"⟩], true, 0⟩

/-- A trip with `collaborativeFeatures.allowDiscussions = false`. -/
def tripClosed : Trip := ⟨1, 10, [⟨20, "confirmed"⟩], false, 0⟩

def stOpen : DiscState := ⟨[tripOpen], [⟨1, [], []⟩]⟩

def stClosed : DiscState := ⟨[tripClosed], []⟩

/-- A discussion already holding one message at timestamp 5. -/
def stTimed : DiscState := ⟨[tripOpen], [⟨1, [⟨1, 10, "first", "text", 5⟩], []⟩]⟩

def usersTwo : List User := [⟨10, "traveler"⟩, ⟨20, "traveler"⟩]

def chatDirect : Chat := ⟨5, 55, "direct", [⟨10, "member"⟩, ⟨20, "member"⟩], none, 0⟩

def chatsOne : List Chat := [chatDirect]

/-- Two text messages and one question in chat 5. -/
def msgQuestion : ChatMessage :=
  ⟨7, 70, 5, 20, "where do we meet?", "question", [], false, none, false, none, none, none, 3⟩

def msgHi : ChatMessage :=
  ⟨6, 60, 5, 10, "hi", "text", [], false, none, false, none, none, none, 1⟩

def msgYo : ChatMessage :=
  ⟨8, 80, 5, 20, "yo", "text", [], false, none, false, none, none, none, 2⟩

def msgsChat : List ChatMessage := [msgHi, msgYo, msgQuestion]

def usersGuide : List User := [⟨7, "guide"⟩, ⟨10, "traveler"⟩]

def ratingSeeded : Rating := ⟨3, 30, 11, "guide", 7, 4, none, 0, 3, false, 1⟩

def ratingsOne : List Rating := [ratingSeeded]

/-! ### Helper lemmas -/

theorem updateFirst_length (p : α → Bool) (f : α → α) (l : List α) :
    (updateFirst p f l).length = l.length := by
  induction l with
  | nil => rfl
  | cons x xs ih =>
    by_cases hx : p x <;> simp [updateFirst, hx, ih]

theorem find?_updateFirst (p : α → Bool) (f : α → α) (l : List α) (a : α)
    (h : l.find? p = some a) (hf : p (f a) = true) :
    (updateFirst p f l).find? p = some (f a) := by
  induction l with
  | nil => simp at h
  | cons x xs ih =>
    by_cases hx : p x
    · rw [List.find?_cons_of_pos _ hx] at h
      cases h
      simp [updateFirst, hx, List.find?_cons_of_pos _ hf]
    · rw [List.find?_cons_of_neg _ hx] at h
      simp [updateFirst, hx, List.find?_cons_of_neg _ hx, ih h]

theorem mem_updateFirst_of_not_p (p : α → Bool) (f : α → α) (l : List α) (x : α)
    (hx : x ∈ l) (hp : p x = false) : x ∈ updateFirst p f l := by
  induction l with
  | nil => simp at hx
  | cons y ys ih =>
    rcases List.mem_cons.mp hx with rfl | hmem
    · simp [updateFirst, hp]
    · by_cases hy : p y
      · simp only [updateFirst, hy, if_pos, List.mem_cons]
        exact Or.inr hmem
      · simp [updateFirst, hy, ih hmem]

theorem find?_append_of_none (p : α → Bool) (l1 l2 : List α)
    (h : l1.find? p = none) : (l1 ++ l2).find? p = l2.find? p := by
  induction l1 with
  | nil => rfl
  | cons x xs ih =>
    by_cases hx : p x
    · rw [List.find?_cons_of_pos _ hx] at h
      cases h
    · rw [List.find?_cons_of_neg _ hx] at h
      simp [List.find?_cons_of_neg _ hx, ih h]

theorem filter_map_length_eq (p : α → Bool) (f : α → α) (l : List α)
    (hpf : ∀ a, p (f a) = p a) : ((l.map f).filter p).length = (l.filter p).length := by
  induction l with
  | nil => rfl
  | cons x xs ih =>
    by_cases hx : p x <;> simp [hpf, hx, ih]

theorem forall2_map_self {f : α → α} {P : α → α → Prop} (l : List α)
    (h : ∀ a ∈ l, P (f a) a) : List.Forall₂ P (l.map f) l := by
  induction l with
  | nil => exact List.Forall₂.nil
  | cons x xs ih =>
    exact List.Forall₂.cons (h x (List.mem_cons_self x xs))
      (ih fun a ha => h a (List.mem_cons_of_mem x ha))

/-! ### C10: markAsRead -/

theorem markReadOne_idem (chatId userId : Nat) (m : ChatMessage) :
    markReadOne chatId userId (markReadOne chatId userId m) = markReadOne chatId userId m := by
  by_cases h1 : m.chat = chatId <;>
    by_cases h2 : m.sender = userId <;>
      by_cases h3 : userId ∈ m.readBy <;>
        simp [markReadOne, h1, h2, h3]

theorem markReadOne_spec (chatId userId : Nat) (m : ChatMessage) :
    (m.chat = chatId → m.sender ≠ userId → userId ∈ (markReadOne chatId userId m).readBy) ∧
    (m.sender = userId → markReadOne chatId userId m = m) ∧
    (m.chat ≠ chatId → markReadOne chatId userId m = m) ∧
    (userId ∈ m.readBy → markReadOne chatId userId m = m) ∧
    (markReadOne chatId userId m).id = m.id ∧
    (markReadOne chatId userId m).chat = m.chat ∧
    (markReadOne chatId userId m).sender = m.sender ∧
    (markReadOne chatId userId m).content = m.content ∧
    (markReadOne chatId userId m).isDeleted = m.isDeleted ∧
    (∀ u : Nat, u ≠ userId → (u ∈ (markReadOne chatId userId m).readBy ↔ u ∈ m.readBy)) := by
  by_cases h1 : m.chat = chatId <;>
    by_cases h2 : m.sender = userId <;>
      by_cases h3 : userId ∈ m.readBy <;>
        simp [markReadOne, h1, h2, h3] <;> tauto

/-- C10: `markAsRead` adds the requester to the read-by set of every message
of the chat that the requester did not author and that they have not read
yet, leaves every other message (and every other field) unchanged, is
idempotent, and performs no participant check: for every message store,
chat id and requester it responds 200, never 403. -/
theorem C10_markAsRead_spec (msgs : List ChatMessage) (chatId userId : Nat) :
    (markAsRead msgs chatId userId).1 = 200 ∧
    (markAsRead (markAsRead msgs chatId userId).2 chatId userId).2 =
      (markAsRead msgs chatId userId).2 ∧
    List.Forall₂ (fun m2 m =>
      (m.chat = chatId → m.sender ≠ userId → userId ∈ m2.readBy) ∧
      (m.sender = userId → m2 = m) ∧
      (m.chat ≠ chatId → m2 = m) ∧
      (userId ∈ m.readBy → m2 = m) ∧
      m2.id = m.id ∧ m2.chat = m.chat ∧ m2.sender = m.sender ∧ m2.content = m.content ∧
      m2.isDeleted = m.isDeleted ∧ (∀ u : Nat, u ≠ userId → (u ∈ m2.readBy ↔ u ∈ m.readBy)))
      (markAsRead msgs chatId userId).2 msgs := by
  refine ⟨rfl, ?_, ?_⟩
  · show (msgs.map (markReadOne chatId userId)).map (markReadOne chatId userId) =
      msgs.map (markReadOne chatId userId)
    rw [List.map_map]
    exact List.map_congr_left fun a _ => markReadOne_idem chatId userId a
  · exact forall2_map_self msgs fun m _ => markReadOne_spec chatId userId m

/-! ### C9: deleteMessage -/

/-- C9: `deleteMessage` is Forbidden (403) for any requester other than the
sender, leaving the store untouched; for the sender it soft-deletes: only
`isDeleted` and `deletedAt` change, every other field of the message is
kept, and the record is retained (store length unchanged, all other
messages untouched). -/
theorem C9_deleteMessage_spec (msgs : List ChatMessage) (messageId userId now : Nat)
    (m : ChatMessage) (hfind : findMsg msgs messageId = some m) :
    (m.sender ≠ userId → deleteMessage msgs messageId userId now = ⟨403, msgs⟩) ∧
    (m.sender = userId →
      (deleteMessage msgs messageId userId now).status = 200 ∧
      (deleteMessage msgs messageId userId now).messages.length = msgs.length ∧
      (∀ x ∈ msgs, x.id ≠ messageId → x ∈ (deleteMessage msgs messageId userId now).messages) ∧
      ∃ x ∈ (deleteMessage msgs messageId userId now).messages,
        x.isDeleted = true ∧ x.deletedAt = some now ∧ x.id = m.id ∧ x.content = m.content ∧
        x.sender = m.sender ∧ x.chat = m.chat ∧ x.readBy = m.readBy ∧
        x.messageType = m.messageType ∧ x.answer = m.answer ∧ x.answeredBy = m.answeredBy ∧
        x.answeredAt = m.answeredAt ∧ x.isAnswered = m.isAnswered ∧
        x.createdAt = m.createdAt) := by
  have hfind2 : msgs.find? (fun x => x.id == messageId) = some m := hfind
  have hmem : m ∈ msgs := List.mem_of_find?_eq_some hfind2
  have hid : (m.id == messageId) = true := by simpa using List.find?_some hfind2
  constructor
  · intro hs
    simp [deleteMessage, hfind, bne_iff_ne, hs]
  · intro hs
    have hcond : (m.sender != userId) = false := by simp [hs]
    have hres : deleteMessage msgs messageId userId now =
        ⟨200, msgs.map (fun y =>
          if y.id == messageId then { y with isDeleted := true, deletedAt := some now } else y)⟩ := by
      simp [deleteMessage, hfind, hcond]
    rw [hres]
    refine ⟨rfl, by simp, ?_, ?_⟩
    · intro x hx hxid
      exact List.mem_map.mpr ⟨x, hx, by simp [hxid]⟩
    · refine ⟨_, List.mem_map.mpr ⟨m, hmem, rfl⟩, ?_, ?_, ?_, ?_, ?_, ?_, ?_, ?_, ?_, ?_, ?_, ?_, ?_⟩ <;>
        simp [hid]

/-! ### C7: answerQuestion -/

/-- C7: `answerQuestion` rejects with 400 when the target message is not a
question or is already answered, leaving the store untouched; on success
(non-empty trimmed answer, existing unanswered question) it sets exactly the
answer text, the answerer, the answered-at timestamp and the answered flag,
preserving every other field and every other message. -/
theorem C7_answerQuestion_spec (msgs : List ChatMessage) (messageId userId : Nat)
    (answer : String) (now : Nat) (m : ChatMessage)
    (hfind : findMsg msgs messageId = some m) :
    ((m.messageType ≠ "question" ∨ m.isAnswered = true) →
      answerQuestion msgs messageId userId answer now = ⟨400, msgs⟩) ∧
    ((jsTrim answer).length ≠ 0 → m.messageType = "question" → m.isAnswered = false →
      (answerQuestion msgs messageId userId answer now).status = 200 ∧
      (answerQuestion msgs messageId userId answer now).messages.length = msgs.length ∧
      (∀ x ∈ msgs, x.id ≠ messageId →
        x ∈ (answerQuestion msgs messageId userId answer now).messages) ∧
      ∃ x ∈ (answerQuestion msgs messageId userId answer now).messages,
        x.answer = some (jsTrim answer) ∧ x.answeredBy = some userId ∧
        x.answeredAt = some now ∧ x.isAnswered = true ∧ x.id = m.id ∧
        x.content = m.content ∧ x.sender = m.sender ∧ x.chat = m.chat ∧
        x.readBy = m.readBy ∧ x.isDeleted = m.isDeleted ∧ x.deletedAt = m.deletedAt ∧
        x.messageType = m.messageType ∧ x.createdAt = m.createdAt) := by
  have hfind2 : msgs.find? (fun x => x.id == messageId) = some m := hfind
  have hmem : m ∈ msgs := List.mem_of_find?_eq_some hfind2
  have hid : (m.id == messageId) = true := by simpa using List.find?_some hfind2
  constructor
  · intro hrej
    by_cases he : ((jsTrim answer).length == 0) = true
    · simp [answerQuestion, he]
    · rcases hrej with hq | ha
      · simp [answerQuestion, he, hfind, bne_iff_ne, hq]
      · by_cases hq : m.messageType = "question"
        · simp [answerQuestion, he, hfind, bne_iff_ne, hq, ha]
        · simp [answerQuestion, he, hfind, bne_iff_ne, hq]
  · intro hne hq hans
    have he : ((jsTrim answer).length == 0) = false := by simpa using hne
    have hres : answerQuestion msgs messageId userId answer now =
        ⟨200, msgs.map (fun y =>
          if y.id == messageId then
            { y with answer := some (jsTrim answer), answeredBy := some userId,
                     answeredAt := some now, isAnswered := true }
          else y)⟩ := by
      simp [answerQuestion, he, hfind, bne_iff_ne, hq, hans]
    rw [hres]
    refine ⟨rfl, by simp, ?_, ?_⟩
    · intro x hx hxid
      exact List.mem_map.mpr ⟨x, hx, by simp [hxid]⟩
    · refine ⟨_, List.mem_map.mpr ⟨m, hmem, rfl⟩, ?_, ?_, ?_, ?_, ?_, ?_, ?_, ?_, ?_, ?_, ?_, ?_, ?_⟩ <;>
        simp [hid]

/-! ### C6: reportRating auto-hide -/

/-- C6: reporting a rating increments its report count; if the count reaches
5 (or more) the rating is hidden, if it is still 4 or less the hidden flag
is unchanged — in particular a previously visible rating stays inside the
`getRatings` visibility filter.  All other ratings are untouched. -/
theorem C6_reportRating_autohide (ratings : List Rating) (ratingId : Nat) (r : Rating)
    (hfind : ratings.find? (fun x => x.id == ratingId) = some r) :
    (reportRating ratings ratingId).status = 200 ∧
    (reportRating ratings ratingId).ratings.length = ratings.length ∧
    (∀ y ∈ ratings, y.id ≠ ratingId → y ∈ (reportRating ratings ratingId).ratings) ∧
    ∃ x ∈ (reportRating ratings ratingId).ratings,
      x.id = r.id ∧ x.reportCount = r.reportCount + 1 ∧
      (5 ≤ r.reportCount + 1 → x.isHidden = true) ∧
      (r.reportCount + 1 ≤ 4 → x.isHidden = r.isHidden) ∧
      (r.reportCount + 1 ≤ 4 → r.isHidden = false →
        x.isHidden = false ∧
        x ∈ visibleRatings (reportRating ratings ratingId).ratings r.targetType r.targetId) := by
  have hmem : r ∈ ratings := List.mem_of_find?_eq_some hfind
  have hid : (r.id == ratingId) = true := by simpa using List.find?_some hfind
  have hres : reportRating ratings ratingId =
      ⟨200, ratings.map (fun y =>
        if y.id == ratingId then
          { y with reportCount := y.reportCount + 1,
                   isHidden := if y.reportCount + 1 ≥ 5 then true else y.isHidden }
        else y)⟩ := by
    simp [reportRating, hfind]
  rw [hres]
  refine ⟨rfl, by simp, ?_, ?_⟩
  · intro y hy hyid
    exact List.mem_map.mpr ⟨y, hy, by simp [hyid]⟩
  · refine ⟨_, List.mem_map.mpr ⟨r, hmem, rfl⟩, ?_, ?_, ?_, ?_, ?_⟩
    · simp [hid]
    · simp [hid]
    · intro h5
      simp [hid, ge_iff_le, h5]
    · intro h4
      have hn5 : ¬ 5 ≤ r.reportCount + 1 := by omega
      simp [hid, ge_iff_le, hn5]
    · intro h4 hvis
      have hn5 : ¬ 5 ≤ r.reportCount + 1 := by omega
      refine ⟨by simp [hid, ge_iff_le, hn5, hvis], ?_⟩
      refine List.mem_filter.mpr ⟨List.mem_map.mpr ⟨r, hmem, rfl⟩, ?_⟩
      simp [hid, ge_iff_le, hn5, hvis]

/-! ### C5: createRating uniqueness -/

theorem matchRatingKey_update (reviewer : Nat) (targetType : String) (targetId i v : Nat)
    (rv : Option String) (a : Rating) :
    matchRatingKey reviewer targetType targetId
      (if a.id == i then { a with rating := v, review := rv } else a) =
    matchRatingKey reviewer targetType targetId a := by
  by_cases h : (a.id == i) = true <;> simp [matchRatingKey, h]

/-- C5: two `createRating` calls by the same reviewer for the same target
leave exactly one persisted rating for that (reviewer, targetType, targetId)
key: the first call (on a store with no such rating) creates it (201), the
second call updates the score and review of the existing record in place
(200) without growing the store, and afterwards every rating carrying the
key holds the second call's score and review. -/
theorem C5_createRating_unique (users : List User) (trips : List Trip) (ratings : List Rating)
    (reviewerId : Nat) (targetType : String) (targetId v1 : Nat) (rv1 : Option String)
    (v2 : Nat) (rv2 : Option String) (id1 uuid1 now1 id2 uuid2 now2 : Nat)
    (htc : targetCheck users trips targetType targetId = none)
    (hv1 : ratingValid v1 rv1 = true) (hv2 : ratingValid v2 rv2 = true)
    (hnone : ratings.find? (matchRatingKey reviewerId targetType targetId) = none) :
    (createRating users trips ratings reviewerId targetType targetId v1 rv1 id1 uuid1 now1).status = 201 ∧
    (createRating users trips
        (createRating users trips ratings reviewerId targetType targetId v1 rv1 id1 uuid1 now1).ratings
        reviewerId targetType targetId v2 rv2 id2 uuid2 now2).status = 200 ∧
    (createRating users trips
        (createRating users trips ratings reviewerId targetType targetId v1 rv1 id1 uuid1 now1).ratings
        reviewerId targetType targetId v2 rv2 id2 uuid2 now2).ratings.length =
      ratings.length + 1 ∧
    countRatingKey
      (createRating users trips
        (createRating users trips ratings reviewerId targetType targetId v1 rv1 id1 uuid1 now1).ratings
        reviewerId targetType targetId v2 rv2 id2 uuid2 now2).ratings
      reviewerId targetType targetId = 1 ∧
    ∀ x ∈ (createRating users trips
        (createRating users trips ratings reviewerId targetType targetId v1 rv1 id1 uuid1 now1).ratings
        reviewerId targetType targetId v2 rv2 id2 uuid2 now2).ratings,
      matchRatingKey reviewerId targetType targetId x = true →
        x.rating = v2 ∧ x.review = rv2 := by
  have hkey_new : matchRatingKey reviewerId targetType targetId
      (freshRating id1 uuid1 reviewerId targetType targetId v1 rv1 now1) = true := by
    simp [matchRatingKey, freshRating]
  have hr1 : createRating users trips ratings reviewerId targetType targetId v1 rv1 id1 uuid1 now1 =
      ⟨201, ratings ++ [freshRating id1 uuid1 reviewerId targetType targetId v1 rv1 now1]⟩ := by
    simp [createRating, htc, hnone, hv1]
  have hfind2 : (ratings ++ [freshRating id1 uuid1 reviewerId targetType targetId v1 rv1 now1]).find?
      (matchRatingKey reviewerId targetType targetId) =
      some (freshRating id1 uuid1 reviewerId targetType targetId v1 rv1 now1) := by
    rw [find?_append_of_none _ _ _ hnone]
    simp [List.find?_cons_of_pos _ hkey_new]
  have hr2 : createRating users trips
      (ratings ++ [freshRating id1 uuid1 reviewerId targetType targetId v1 rv1 now1])
      reviewerId targetType targetId v2 rv2 id2 uuid2 now2 =
      ⟨200, (ratings ++ [freshRating id1 uuid1 reviewerId targetType targetId v1 rv1 now1]).map
        (fun a => if a.id == id1 then { a with rating := v2, review := rv2 } else a)⟩ := by
    simp [createRating, htc, hnone, hv2, freshRating, matchRatingKey]
  rw [hr1]
  simp only [hr2]
  refine ⟨trivial, trivial, by simp, ?_, ?_⟩
  · unfold countRatingKey
    rw [filter_map_length_eq _ _ _ (matchRatingKey_update reviewerId targetType targetId id1 v2 rv2)]
    rw [List.filter_append]
    have h0 : ratings.filter (matchRatingKey reviewerId targetType targetId) = [] := by
      rw [List.filter_eq_nil_iff]
      intro a ha
      have := List.find?_eq_none.mp hnone a ha
      simpa using this
    rw [h0]
    simp [hkey_new]
  · intro x hx hkx
    obtain ⟨y, hy, rfl⟩ := List.mem_map.mp hx
    rw [matchRatingKey_update] at hkx
    rcases List.mem_append.mp hy with hyl | hyr
    · exact absurd hkx (by simpa using List.find?_eq_none.mp hnone y hyl)
    · have hy1 : y = freshRating id1 uuid1 reviewerId targetType targetId v1 rv1 now1 := by
        simpa using hyr
      subst hy1
      simp [freshRating]

/-! ### C4: createDirectChat idempotence and symmetry -/

theorem isDirectPair_symm (a b : Nat) (c : Chat) :
    isDirectPair b a c = isDirectPair a b c := by
  simp [isDirectPair, Bool.and_assoc, Bool.and_comm, Bool.and_left_comm]

theorem findDirectChat_symm_none (chats : List Chat) (a b : Nat)
    (h : findDirectChat chats a b = none) : findDirectChat chats b a = none := by
  unfold findDirectChat at h ⊢
  rw [List.find?_eq_none] at h ⊢
  intro c hc
  rw [isDirectPair_symm]
  exact h c hc

/-- C4: starting from a store with no direct chat for the unordered pair
{a, b}, creating a direct chat as a with b creates one chat (201), and the
reversed call as b with a returns the same chat record (200) without
creating another: afterwards exactly one direct chat contains both users. -/
theorem C4_createDirectChat_idempotent (users : List User) (chats : List Chat)
    (a b id1 uuid1 id2 uuid2 : Nat) (ua ub : User)
    (ha : findUser users a = some ua) (hb : findUser users b = some ub)
    (hnone : findDirectChat chats a b = none) :
    (createDirectChat users chats a (some b) id1 uuid1).status = 201 ∧
    (createDirectChat users (createDirectChat users chats a (some b) id1 uuid1).chats
        b (some a) id2 uuid2).status = 200 ∧
    (createDirectChat users (createDirectChat users chats a (some b) id1 uuid1).chats
        b (some a) id2 uuid2).chats =
      (createDirectChat users chats a (some b) id1 uuid1).chats ∧
    (createDirectChat users (createDirectChat users chats a (some b) id1 uuid1).chats
        b (some a) id2 uuid2).chat =
      (createDirectChat users chats a (some b) id1 uuid1).chat ∧
    countDirectPair chats a b = 0 ∧
    countDirectPair (createDirectChat users (createDirectChat users chats a (some b) id1 uuid1).chats
        b (some a) id2 uuid2).chats a b = 1 := by
  have hpair_ab : isDirectPair a b (freshDirectChat id1 uuid1 a b) = true := by
    simp [isDirectPair, freshDirectChat]
  have hpair_ba : isDirectPair b a (freshDirectChat id1 uuid1 a b) = true := by
    rw [isDirectPair_symm]
    exact hpair_ab
  have hr1 : createDirectChat users chats a (some b) id1 uuid1 =
      ⟨201, chats ++ [freshDirectChat id1 uuid1 a b], some (freshDirectChat id1 uuid1 a b)⟩ := by
    simp [createDirectChat, hb, hnone]
  have hnone_ba : findDirectChat chats b a = none := findDirectChat_symm_none chats a b hnone
  have hfound : findDirectChat (chats ++ [freshDirectChat id1 uuid1 a b]) b a =
      some (freshDirectChat id1 uuid1 a b) := by
    unfold findDirectChat
    unfold findDirectChat at hnone_ba
    rw [find?_append_of_none _ _ _ hnone_ba]
    simp [List.find?_cons_of_pos _ hpair_ba]
  have hr2 : createDirectChat users (chats ++ [freshDirectChat id1 uuid1 a b]) b (some a) id2 uuid2 =
      ⟨200, chats ++ [freshDirectChat id1 uuid1 a b], some (freshDirectChat id1 uuid1 a b)⟩ := by
    simp [createDirectChat, ha, hfound]
  have h0 : chats.filter (isDirectPair a b) = [] := by
    rw [List.filter_eq_nil_iff]
    intro c hc
    have := List.find?_eq_none.mp hnone c hc
    simpa using this
  rw [hr1]
  simp only [hr2]
  refine ⟨trivial, trivial, trivial, trivial, ?_, ?_⟩
  · unfold countDirectPair
    rw [h0]
    rfl
  · unfold countDirectPair
    rw [List.filter_append, h0]
    simp [hpair_ab]

/-! ### C8: getChatMessages ordering and authorization -/

/-- C8: `getChatMessages` is Forbidden (403) for a non-participant; for a
participant the returned page is the newest-first ordering of the chat's
messages, sliced at offset (page-1)*limit with length limit, then reversed —
hence chronologically ascending — and page 1 holds the most recent
messages: any chat message left out of page 1 is no newer than any returned
one. -/
theorem C8_getChatMessages_spec (chats : List Chat) (msgs : List ChatMessage)
    (chatId userId page limit : Nat) (chat : Chat)
    (hfind : findChat chats chatId = some chat) :
    (chat.participants.any (fun p => p.user == userId) = false →
      getChatMessages chats msgs chatId userId page limit = ⟨403, none⟩) ∧
    (chat.participants.any (fun p => p.user == userId) = true →
      getChatMessages chats msgs chatId userId page limit =
        ⟨200, some (((List.insertionSort createdGe (msgs.filter (fun m => m.chat == chatId))).drop
          ((page - 1) * limit)).take limit).reverse⟩ ∧
      ∃ ms, getChatMessages chats msgs chatId userId page limit = ⟨200, some ms⟩ ∧
        ms.Pairwise (fun x y => x.createdAt ≤ y.createdAt) ∧
        (∀ x ∈ ms, x ∈ msgs ∧ x.chat = chatId) ∧
        (page = 1 → ∀ x ∈ msgs, x.chat = chatId → x ∉ ms →
          ∀ y ∈ ms, x.createdAt ≤ y.createdAt)) := by
  constructor
  · intro hno
    simp [getChatMessages, hfind, hno]
  · intro hyes
    have hres : getChatMessages chats msgs chatId userId page limit =
        ⟨200, some (((List.insertionSort createdGe (msgs.filter (fun m => m.chat == chatId))).drop
          ((page - 1) * limit)).take limit).reverse⟩ := by
      simp [getChatMessages, hfind, hyes]
    set S := List.insertionSort createdGe (msgs.filter (fun m => m.chat == chatId)) with hS
    have hsorted : S.Pairwise createdGe :=
      List.sorted_insertionSort createdGe (msgs.filter (fun m => m.chat == chatId))
    have hslice : List.Sublist ((S.drop ((page - 1) * limit)).take limit) S :=
      (List.take_sublist _ _).trans (List.drop_sublist _ _)
    refine ⟨hres, _, hres, ?_, ?_, ?_⟩
    · rw [List.pairwise_reverse]
      exact List.Pairwise.sublist hslice hsorted
    · intro x hx
      rw [List.mem_reverse] at hx
      have hxS : x ∈ S := hslice.subset hx
      have hxf : x ∈ msgs.filter (fun m => m.chat == chatId) :=
        (List.perm_insertionSort createdGe _).subset hxS
      have hx2 := List.mem_filter.mp hxf
      exact ⟨hx2.1, by simpa using hx2.2⟩
    · intro hpage x hxmsgs hxchat hxnot y hy
      subst hpage
      simp only [Nat.sub_self, Nat.zero_mul, List.drop_zero] at hxnot hy
      rw [List.mem_reverse] at hy
      have hxf : x ∈ msgs.filter (fun m => m.chat == chatId) :=
        List.mem_filter.mpr ⟨hxmsgs, by simpa using hxchat⟩
      have hxS : x ∈ S :=
        ((List.perm_insertionSort createdGe _).mem_iff).mpr hxf
      have hxtake : x ∉ S.take limit := by
        intro hcontra
        exact hxnot (List.mem_reverse.mpr hcontra)
      have hxdrop : x ∈ S.drop limit := by
        rcases List.mem_append.mp ((List.take_append_drop limit S) ▸ hxS) with h1 | h2
        · exact absurd h1 hxtake
        · exact h2
      have hsorted2 : (S.take limit ++ S.drop limit).Pairwise createdGe := by
        rw [List.take_append_drop]
        exact hsorted
      exact (List.pairwise_append.mp hsorted2).2.2 y hy x hxdrop

/-! ### C2: discussions disabled -/

/-- C2 (amended): on a trip with `allowDiscussions = false`, every
`sendMessage` call with non-empty trimmed content returns Forbidden (403)
regardless of the caller (organizer, confirmed participant or anyone else)
and persists nothing; a call with empty trimmed content is instead caught
by the earlier content validation (400), also persisting nothing. -/
theorem C2_discussions_disabled_forbidden (st : DiscState) (tripId requester : Nat)
    (content messageType : String) (msgId now : Nat) (t : Trip)
    (ht : findTrip st.trips tripId = some t) (hoff : t.allowDiscussions = false) :
    ((jsTrim content).length ≠ 0 →
      sendMessage st tripId requester content messageType msgId now = ⟨403, st, none⟩) ∧
    ((jsTrim content).length = 0 →
      sendMessage st tripId requester content messageType msgId now = ⟨400, st, none⟩) := by
  constructor
  · intro h
    have he : ((jsTrim content).length == 0) = false := by simpa using h
    simp [sendMessage, he, ht, hoff]
  · intro h
    have he : ((jsTrim content).length == 0) = true := by simpa using h
    simp [sendMessage, he]

/-- C2 counterexample: on a trip with discussions disabled, a `sendMessage`
call by the organizer with empty content returns 400, not 403, so "every
call returns Forbidden (403)" fails as literally stated (the content
validation runs before the discussions-disabled check). -/
theorem C2_counterexample :
    findTrip stClosed.trips 1 = some tripClosed ∧
    tripClosed.allowDiscussions = false ∧
    tripClosed.organizer = 10 ∧
    (sendMessage stClosed 1 10 "" "text" 99 7).status = 400 ∧
    (sendMessage stClosed 1 10 "" "text" 99 7).status ≠ 403 := by
  decide

/-! ### C3: send / getDiscussion round trip -/

theorem canAccess_touch (t : Trip) (now uid : Nat) :
    canAccess { t with lastActivity := now } uid = canAccess t uid := rfl

/-- C3 (amended): a message successfully appended by `sendMessage` appears
in the discussion found by a subsequent `getDiscussion` of an authorized
requester; the full message sequence sorted by timestamp is ordered
non-decreasingly (non-strict: distinct messages may share a timestamp), it
contains the new message, and the returned page is the slice of that
ordered sequence at offset (page-1)*limit with length limit. -/
theorem C3_roundtrip_sorted (st : DiscState) (tripId requester requester2 : Nat)
    (content messageType : String) (msgId now page limit seedMsgId now2 : Nat) (t : Trip)
    (ht : findTrip st.trips tripId = some t)
    (hne : (jsTrim content).length ≠ 0)
    (hon : t.allowDiscussions = true)
    (hacc : canAccess t requester = true)
    (hacc2 : canAccess t requester2 = true) :
    (sendMessage st tripId requester content messageType msgId now).status = 201 ∧
    ∃ d, findDisc (sendMessage st tripId requester content messageType msgId now).state.discussions
          tripId = some d ∧
      mkDiscMessage msgId requester content messageType now ∈ d.messages ∧
      mkDiscMessage msgId requester content messageType now ∈ List.insertionSort tsLe d.messages ∧
      List.Pairwise tsLe (List.insertionSort tsLe d.messages) ∧
      getDiscussion (sendMessage st tripId requester content messageType msgId now).state tripId
          requester2 page limit seedMsgId now2 =
        ⟨200, (sendMessage st tripId requester content messageType msgId now).state,
          some (((List.insertionSort tsLe d.messages).drop ((page - 1) * limit)).take limit)⟩ := by
  have he : ((jsTrim content).length == 0) = false := by simpa using hne
  have hid : (t.id == tripId) = true := by simpa using List.find?_some ht
  have htrips2 : findTrip (touchTripActivity st.trips tripId now) tripId =
      some { t with lastActivity := now } := by
    unfold touchTripActivity findTrip
    exact find?_updateFirst _ _ _ _ ht hid
  have hacc2b : canAccess { t with lastActivity := now } requester2 = true := by
    rw [canAccess_touch]
    exact hacc2
  have hstatus : (sendMessage st tripId requester content messageType msgId now).status = 201 := by
    simp [sendMessage, he, ht, hon, hacc]
  cases hd : findDisc st.discussions tripId with
  | some d0 =>
    have hd0p : (d0.trip == tripId) = true := by
      simpa using List.find?_some (show st.discussions.find? (fun d => d.trip == tripId) = some d0 from hd)
    have hstate : (sendMessage st tripId requester content messageType msgId now).state.discussions =
        updateFirst (fun d => d.trip == tripId)
          (appendMsgPresence (mkDiscMessage msgId requester content messageType now) requester now)
          st.discussions := by
      simp [sendMessage, he, ht, hon, hacc, pushMessageUpsert, hd]
    have hstatetr : (sendMessage st tripId requester content messageType msgId now).state.trips =
        touchTripActivity st.trips tripId now := by
      simp [sendMessage, he, ht, hon, hacc, pushMessageUpsert, hd]
    have hdisc2 : findDisc (sendMessage st tripId requester content messageType msgId now).state.discussions
        tripId = some (appendMsgPresence (mkDiscMessage msgId requester content messageType now)
          requester now d0) := by
      rw [hstate]
      unfold findDisc
      exact find?_updateFirst _ _ _ _ hd hd0p
    have hmemd : mkDiscMessage msgId requester content messageType now ∈
        (appendMsgPresence (mkDiscMessage msgId requester content messageType now) requester now d0).messages := by
      simp [appendMsgPresence]
    refine ⟨hstatus, _, hdisc2, hmemd, ?_, List.sorted_insertionSort tsLe _, ?_⟩
    · exact ((List.perm_insertionSort tsLe _).mem_iff).mpr hmemd
    · unfold getDiscussion
      rw [hstatetr, htrips2]
      simp only [hacc2b, Bool.not_true, Bool.false_eq_true, if_false, hdisc2]
  | none =>
    have hstate : (sendMessage st tripId requester content messageType msgId now).state.discussions =
        st.discussions ++ [upsertedDiscussion tripId
          (mkDiscMessage msgId requester content messageType now) requester now] := by
      simp [sendMessage, he, ht, hon, hacc, pushMessageUpsert, hd]
    have hstatetr : (sendMessage st tripId requester content messageType msgId now).state.trips =
        touchTripActivity st.trips tripId now := by
      simp [sendMessage, he, ht, hon, hacc, pushMessageUpsert, hd]
    have hdisc2 : findDisc (sendMessage st tripId requester content messageType msgId now).state.discussions
        tripId = some (upsertedDiscussion tripId
          (mkDiscMessage msgId requester content messageType now) requester now) := by
      rw [hstate]
      unfold findDisc
      rw [find?_append_of_none _ _ _ hd]
      simp [List.find?_cons_of_pos, upsertedDiscussion]
    have hmemd : mkDiscMessage msgId requester content messageType now ∈
        (upsertedDiscussion tripId (mkDiscMessage msgId requester content messageType now)
          requester now).messages := by
      simp [upsertedDiscussion]
    refine ⟨hstatus, _, hdisc2, hmemd, ?_, List.sorted_insertionSort tsLe _, ?_⟩
    · exact ((List.perm_insertionSort tsLe _).mem_iff).mpr hmemd
    · unfold getDiscussion
      rw [hstatetr, htrips2]
      simp only [hacc2b, Bool.not_true, Bool.false_eq_true, if_false, hdisc2]

/-- C3 counterexample: two messages can share a timestamp (two sends in the
same instant): after appending a message at timestamp 5 to a discussion
already holding one at timestamp 5, `getDiscussion` returns both, and the
sequence is not *strictly* ascending. -/
theorem C3_counterexample :
    (sendMessage stTimed 1 10 "hi" "text" 2 5).status = 201 ∧
    (getDiscussion (sendMessage stTimed 1 10 "hi" "text" 2 5).state 1 10 1 50 99 9).status = 200 ∧
    (getDiscussion (sendMessage stTimed 1 10 "hi" "text" 2 5).state 1 10 1 50 99 9).messages =
      some [⟨1, 10, "first", "text", 5⟩, ⟨2, 10, "hi", "text", 5⟩] ∧
    ¬ List.Pairwise (fun a b : DiscMessage => a.timestamp < b.timestamp)
        [(⟨1, 10, "first", "text", 5⟩ : DiscMessage), ⟨2, 10, "hi", "text", 5⟩] := by
  refine ⟨by decide, by decide, by decide, ?_⟩
  intro h
  have := List.rel_of_pairwise_cons h (List.mem_singleton.mpr rfl)
  simp at this

/-! ### C1: the 1000-character limit on sendMessage -/

/-- C1: `sendMessage` does not enforce the schema's 1000-character limit.
A 1001-character content sent by the organizer of a trip with discussions
enabled is accepted (201) and persisted — the `$push` goes through
`findOneAndUpdate`, which skips the schema validator — instead of being
rejected with 400 as the claim demands.  The claim's boundary half does
hold: exactly 1000 characters succeeds and is persisted. -/
theorem C1_overlong_content_persisted :
    (sendMessage stOpen 1 10 longContent "text" 99 7).status = 201 ∧
    ((sendMessage stOpen 1 10 longContent "text" 99 7).state.discussions.any
      (fun d => d.trip == 1 && d.messages.any (fun x => x.content.length == 1001))) = true ∧
    (sendMessage stOpen 1 10 content1000 "text" 98 7).status = 201 ∧
    ((sendMessage stOpen 1 10 content1000 "text" 98 7).state.discussions.any
      (fun d => d.trip == 1 && d.messages.any (fun x => x.content.length == 1000))) = true := by
  refine ⟨by decide, by decide, by decide, by decide⟩

/-! ### Witnesses: each hypothesised theorem applied at a concrete input -/

theorem C2_witness :
    findTrip stClosed.trips 1 = some tripClosed ∧
    tripClosed.allowDiscussions = false ∧
    sendMessage stClosed 1 20 "hello" "text" 99 7 = ⟨403, stClosed, none⟩ :=
  ⟨by decide, by decide,
    (C2_discussions_disabled_forbidden stClosed 1 20 "hello" "text" 99 7 tripClosed
      (by decide) (by decide)).1 (by decide)⟩

theorem C3_witness :
    findTrip stTimed.trips 1 = some tripOpen ∧
    (jsTrim "hello").length ≠ 0 ∧
    tripOpen.allowDiscussions = true ∧
    canAccess tripOpen 10 = true ∧
    canAccess tripOpen 20 = true ∧
    (sendMessage stTimed 1 10 "hello" "text" 2 9).status = 201 :=
  ⟨by decide, by decide, by decide, by decide, by decide,
    (C3_roundtrip_sorted stTimed 1 10 20 "hello" "text" 2 9 1 50 77 11 tripOpen
      (by decide) (by decide) (by decide) (by decide) (by decide)).1⟩

theorem C4_witness :
    findUser usersTwo 10 = some ⟨10, "traveler"⟩ ∧
    findUser usersTwo 20 = some ⟨20, "traveler"⟩ ∧
    findDirectChat [] 10 20 = none ∧
    (createDirectChat usersTwo [] 10 (some 20) 5 55).status = 201 :=
  ⟨by decide, by decide, by decide,
    (C4_createDirectChat_idempotent usersTwo [] 10 20 5 55 6 66 ⟨10, "traveler"⟩ ⟨20, "traveler"⟩
      (by decide) (by decide) (by decide)).1⟩

theorem C5_witness :
    targetCheck usersGuide [] "guide" 7 = none ∧
    ratingValid 5 none = true ∧
    ratingValid 3 (some "ok") = true ∧
    (createRating usersGuide [] [] 10 "guide" 7 5 none 1 11 100).status = 201 :=
  ⟨by decide, by decide, by decide,
    (C5_createRating_unique usersGuide [] [] 10 "guide" 7 5 none 3 (some "ok") 1 11 100 2 22 200
      (by decide) (by decide) (by decide) (by decide)).1⟩

theorem C6_witness :
    ratingsOne.find? (fun x => x.id == 3) = some ratingSeeded ∧
    (reportRating ratingsOne 3).status = 200 :=
  ⟨by decide, (C6_reportRating_autohide ratingsOne 3 ratingSeeded (by decide)).1⟩

theorem C7_witness :
    findMsg msgsChat 7 = some msgQuestion ∧
    (jsTrim "sure").length ≠ 0 ∧
    msgQuestion.messageType = "question" ∧
    msgQuestion.isAnswered = false ∧
    (answerQuestion msgsChat 7 10 "sure" 9).status = 200 :=
  ⟨by decide, by decide, by decide, by decide,
    ((C7_answerQuestion_spec msgsChat 7 10 "sure" 9 msgQuestion (by decide)).2
      (by decide) (by decide) (by decide)).1⟩

theorem C8_witness :
    findChat chatsOne 5 = some chatDirect ∧
    (chatDirect.participants.any (fun p => p.user == 10)) = true ∧
    getChatMessages chatsOne msgsChat 5 10 1 50 =
      ⟨200, some (((List.insertionSort createdGe (msgsChat.filter (fun m => m.chat == 5))).drop
        ((1 - 1) * 50)).take 50).reverse⟩ :=
  ⟨by decide, by decide,
    ((C8_getChatMessages_spec chatsOne msgsChat 5 10 1 50 chatDirect (by decide)).2 (by decide)).1⟩

theorem C9_witness :
    findMsg msgsChat 6 = some msgHi ∧
    msgHi.sender = 10 ∧
    (deleteMessage msgsChat 6 10 99).status = 200 :=
  ⟨by decide, by decide, ((C9_deleteMessage_spec msgsChat 6 10 99 msgHi (by decide)).2 rfl).1⟩

theorem C10_witness : (markAsRead msgsChat 5 11).1 = 200 :=
  (C10_markAsRead_spec msgsChat 5 11).1
